import Mathlib

/-!
Verification of the change-set audit engine in `src/auditLogService.js`.

The engine's data and control flow are shallowly embedded below. Conventions of the
embedding, fixed once here:

* JavaScript runtime values appearing as record attributes are modelled by `Prim`
  (scalars; the service treats attribute values opaquely). The values stored in audit
  rows (`oldValue`/`newValue` columns) are either scalars or one-level objects, `Value`.
* JavaScript objects built by successive property assignment are association lists
  `List (String × Prim)`; assignment overwrites an existing key in place, otherwise
  appends (`setKey`). A missing property reads as `undefined` (`getAttr`).
* `uuid/v4` is modelled as a fresh-supply counter threaded through the execution: each
  call to `mintUuid` returns the current counter and advances it. Distinct counter
  values model the generator's uniqueness.
* The storage collaborator (sequelize) is modelled by `Store` plus an explicit failure
  oracle `failOn : Write → Option Nat`; `failOn w = some n` means the collaborator
  rejects write `w` with its own opaque error `AuditError.storage n`. None of the
  storage calls issued by the source passes a `transaction` option (the option objects
  of `model.create`, `model.destroy`, `model.save` and `DashboardAuditLog.create`
  carry none), so every write takes effect in its own autocommit scope; accordingly
  `applyWrite` mutates the store directly and `rollbackTransaction` is the identity.
* Method-binding slips of the source are normalized without changing the algorithm:
  `verifyArguments` reads `this.#user` from a static context and the exported
  `create`/`delete`/`update` call `AuditLogService.execute` without an instance; the
  embedding passes the configured service value explicitly. `throw X(...)` on an error
  class is modelled as raising error `X`. The thunk/promise plumbing
  (`createRow.then`, `Promise.all(executables)`) is modelled as running the planned
  writes in the order the source builds them. Where the source references an
  identifier with no binding in scope, the embedding substitutes the unique binding
  evidently meant and records it in a comment at the site.
-/

/-- A scalar JavaScript value, as stored in a record attribute. -/
inductive Prim where
  | null
  | undef
  | str (s : String)
  | num (n : Int)
  deriving DecidableEq, Repr

/-- A value persisted in an audit row column: a scalar or a one-level object. -/
inductive Value where
  | prim (p : Prim)
  | obj (fields : List (String × Prim))
  deriving DecidableEq, Repr

/-- Property read on a JS object literal: `m[k]`, `none` when the key is absent. -/
def lookupKey (m : List (String × Prim)) (k : String) : Option Prim :=
  (m.find? (fun p => p.1 == k)).map (fun p => p.2)

/-- Property read defaulting to `undefined`, as JS property access does. -/
def getAttr (m : List (String × Prim)) (k : String) : Prim :=
  (lookupKey m k).getD Prim.undef

/-- Property assignment `m[k] = v`: overwrite in place, else append. -/
def setKey (m : List (String × Prim)) (k : String) (v : Prim) : List (String × Prim) :=
  if m.any (fun p => p.1 == k) then
    m.map (fun p => if p.1 == k then (k, v) else p)
  else
    m ++ [(k, v)]

/-- Property removal `delete m[k]`. -/
def eraseKey (m : List (String × Prim)) (k : String) : List (String × Prim) :=
  m.filter (fun p => p.1 != k)

/-- Rendering of one `Array.prototype.join` element: `null` and `undefined` become the empty
string, other scalars their usual string conversion. -/
def jsJoinString : Prim → String
  | Prim.null => ""
  | Prim.undef => ""
  | Prim.str s => s
  | Prim.num n => toString n

/-- JavaScript string conversion of a plain object, as produced when an object is used
as a computed property key (`newValue[newValue] = ...`, src line 177). -/
def objToKeyString (_fields : List (String × Prim)) : String :=
  "[object Object]"

/-- The acting dashboard user bound via `withUser`. -/
structure DashboardUser where
  id : Int
  deriving DecidableEq, Repr

/-- A sequelize model instance as the service sees it: table identity, primary-key
attribute names, current in-memory attributes (`model.get`), last-persisted attributes
(`model.previous`), the field names `model.changed()` reports, the optional
`labelValue` capability of its record type, and whether it is `instanceof Model`. -/
structure DBModel where
  tableName : String
  primaryKeyAttributes : List String
  attrs : List (String × Prim)
  previousAttrs : List (String × Prim)
  dirty : List String
  labelCap : Option (Value → Option String)
  isSequelizeModel : Bool

/-- A registered record type, as found in the `DBModels` registry keyed by table name
(used by the CREATE path). -/
structure RegisteredModel where
  primaryKeyAttributes : List String
  labelCap : Option (Value → Option String)

/-- The `DBModels[tableName]` lookup. -/
def dbModelsLookup (dbModels : List (String × RegisteredModel)) (tableName : String) :
    Option RegisteredModel :=
  (dbModels.find? (fun p => p.1 == tableName)).map (fun p => p.2)

/-- Modelled from the spec: the Label Resolver (the `labelValue` dispatch the source
calls at lines 122, 152, 188 and 189) is not itself present under src/ — only its call
sites are. Following section 4.2 of the design, resolution is polymorphic over the
record type's optional capability: a type that does not implement the capability
yields absent (`none`, serialized as null), never an error; a type that does yields
whatever its translation function returns. -/
def labelValue (cap : Option (Value → Option String)) (v : Value) : Option String :=
  match cap with
  | none => none
  | some f => f v

/-- One row of the `DashboardAuditLog` table, with exactly the columns the source
passes to `DashboardAuditLog.create`. The UPDATE row shape of the source carries a
`fieldName` but no `action` column; the CREATE/DELETE shape carries `action` but no
`fieldName` — both are therefore optional here. -/
structure AuditEntry where
  changesetUuidBin : Nat
  tableName : String
  fieldName : Option String
  action : Option String
  primaryKey : String
  oldValue : Value
  newValue : Value
  oldLabel : Option String
  newLabel : Option String
  changedBy : Int
  deriving DecidableEq, Repr

/-- The error taxonomy of the service, plus the two failure kinds that originate
outside it: `typeError` for a JavaScript TypeError (e.g. destructuring a property of
`undefined`) and `storage n` for an opaque failure raised by the storage
collaborator. -/
inductive AuditError where
  | misConfigured
  | invalidAction
  | unknownTableName
  | invalidChangeSet
  | typeError
  | storage (code : Nat)
  deriving DecidableEq, Repr

/-- A storage write the engine issues. None of these carries a transaction handle,
because none of the corresponding calls in the source passes one. -/
inductive Write where
  | createRow (tableName : String) (data : List (String × Prim))
  | auditInsert (entry : AuditEntry)
  | destroyRow (tableName : String) (pkAttrs : List String) (primaryKey : String)
  | saveRow (tableName : String) (pkAttrs : List String) (primaryKey : String)
      (attrs : List (String × Prim))
  deriving DecidableEq, Repr

/-- The storage collaborator's state: data rows tagged by table, the append-only
audit log, and the auto-increment id supply used for generated primary keys. -/
structure Store where
  rows : List (String × List (String × Prim)) := []
  auditLog : List AuditEntry := []
  nextId : Int := 1
  deriving DecidableEq, Repr

/-- Comma-joined primary key of a plain attribute set (used on the row returned by
`model.create`, whose key attributes come from the registered type). -/
def getPrimaryKeyOfAttrs (pkAttrs : List String) (attrs : List (String × Prim)) : String :=
  String.intercalate "," (pkAttrs.map (fun a => jsJoinString (getAttr attrs a)))

/-- Function `getPrimaryKeyForModel` (src lines 26-33): map each primary-key attribute to its
value on the model and `join()` the results — composite keys come out comma
separated. -/
def getPrimaryKeyForModel (model : DBModel) : String :=
  getPrimaryKeyOfAttrs model.primaryKeyAttributes model.attrs

/-- The call `model.create(data)`: insert a row, generating an `id` from the store's supply
when the data does not already carry one; returns the persisted row. -/
def storeCreateRow (store : Store) (tableName : String) (data : List (String × Prim)) :
    Store × List (String × Prim) :=
  if (lookupKey data "id").isSome then
    ({ store with rows := store.rows ++ [(tableName, data)] }, data)
  else
    let row := data ++ [("id", Prim.num store.nextId)]
    ({ store with rows := store.rows ++ [(tableName, row)], nextId := store.nextId + 1 }, row)

/-- The call `model.destroy()`: remove the rows of the table whose primary key matches. -/
def storeDestroyRow (store : Store) (tableName : String) (pkAttrs : List String)
    (pk : String) : Store :=
  { store with
    rows := store.rows.filter
      (fun r => !(r.1 == tableName && getPrimaryKeyOfAttrs pkAttrs r.2 == pk)) }

/-- The call `model.save()`: replace the attributes of the matching row with the model's
current in-memory attributes. -/
def storeSaveRow (store : Store) (tableName : String) (pkAttrs : List String)
    (pk : String) (attrs : List (String × Prim)) : Store :=
  { store with
    rows := store.rows.map
      (fun r =>
        if r.1 == tableName && getPrimaryKeyOfAttrs pkAttrs r.2 == pk then
          (tableName, attrs)
        else r) }

/-- Effect of one write on the store (each write autocommits; see the header note on
the absent transaction option). -/
def applyWrite (store : Store) : Write → Store
  | Write.createRow tableName data => (storeCreateRow store tableName data).1
  | Write.auditInsert entry => { store with auditLog := store.auditLog ++ [entry] }
  | Write.destroyRow tableName pkAttrs pk => storeDestroyRow store tableName pkAttrs pk
  | Write.saveRow tableName pkAttrs pk attrs => storeSaveRow store tableName pkAttrs pk attrs

/-- Run a write plan in order, stopping at the first write the collaborator rejects;
the writes already applied remain in the store. -/
def runPlan (failOn : Write → Option Nat) : Store → List Write → Store × Option AuditError
  | store, [] => (store, none)
  | store, w :: ws =>
    match failOn w with
    | some n => (store, some (AuditError.storage n))
    | none => runPlan failOn (applyWrite store w) ws

/-- One `uuid()` call drawing from the fresh supply. -/
def mintUuid (ctr : Nat) : Nat × Nat :=
  (ctr, ctr + 1)

/-- Outcome of one engine invocation: the store as the writes left it, the advanced
uuid supply, the error re-raised to the caller (if any), and the audit entries the
invocation produced on success. -/
structure ExecResult where
  store : Store
  nextUuid : Nat
  error? : Option AuditError := none
  entries : List AuditEntry := []
  deriving Repr

/-- The per-invocation service state: the privately held `#user` and
`#transaction`. -/
structure AuditLogService where
  user : Option DashboardUser := none
  transaction : Option Nat := none
  deriving DecidableEq, Repr

/-- The list `Object.keys(AUDIT_ACTIONS)` in declaration order (src lines 15-19). -/
def AUDIT_ACTIONS : List String :=
  ["CREATE", "DELETE", "UPDATE"]

namespace AuditLogService

/-- Predicate `supportedModel` (src lines 78-81): the member must be `instanceof Model`; the
`undefined` obtained by indexing past the end of the change-set is not. -/
def supportedModel (model? : Option DBModel) : Bool :=
  match model? with
  | none => false
  | some m => m.isSequelizeModel

/-- Validation `verifyArguments` (src lines 83-92): first the user must be initialized
(`MisConfiguredError`), then every member must be supported
(`InvalidChangeSetError`). -/
def verifyArguments (user? : Option DashboardUser) (changeSet : List (Option DBModel)) :
    Option AuditError :=
  if user?.isNone then some AuditError.misConfigured
  else if !(changeSet.all supportedModel) then some AuditError.invalidChangeSet
  else none

/-- The CREATE audit row (src lines 113-124): `newValue` is the input data — not the
persisted row, which is used only for the primary key. -/
def createAuditRow (tableName : String) (model : RegisteredModel)
    (cleanData row : List (String × Prim)) (u : Nat) (changedBy : Int) : AuditEntry :=
  { changesetUuidBin := u
    tableName := tableName
    fieldName := none
    action := some "CREATE"
    primaryKey := getPrimaryKeyOfAttrs model.primaryKeyAttributes row
    oldValue := Value.prim Prim.null
    newValue := Value.obj cleanData
    oldLabel := none
    newLabel := labelValue model.labelCap (Value.obj cleanData)
    changedBy := changedBy }

/-- Function `createModel` (src lines 100-128), with its storage thunks run in place: look the
table up in `DBModels` (`UnknownTableNameError` when absent), strip `tableName` from
the data (the source writes `delete dataWithTableName.tableName`; the only binding in
scope is `data`), create the row, then insert the CREATE audit row built by
`createAuditRow`. A `none` member models `changeSet[0]` on an empty change-set: the
destructuring `const { tableName } = data` of `undefined` raises a TypeError. -/
def createModel (dbModels : List (String × RegisteredModel)) (failOn : Write → Option Nat)
    (data? : Option DBModel) (changedBy : Int) (store : Store) (ctr : Nat) : ExecResult :=
  match data? with
  | none => { store := store, nextUuid := ctr, error? := some AuditError.typeError }
  | some data =>
    match dbModelsLookup dbModels data.tableName with
    | none => { store := store, nextUuid := ctr, error? := some AuditError.unknownTableName }
    | some model =>
      match failOn (Write.createRow data.tableName (eraseKey data.attrs "tableName")) with
      | some n => { store := store, nextUuid := ctr, error? := some (AuditError.storage n) }
      | none =>
        match failOn (Write.auditInsert (createAuditRow data.tableName model
            (eraseKey data.attrs "tableName")
            (storeCreateRow store data.tableName (eraseKey data.attrs "tableName")).2
            (mintUuid ctr).1 changedBy)) with
        | some n =>
          { store := (storeCreateRow store data.tableName (eraseKey data.attrs "tableName")).1
            nextUuid := (mintUuid ctr).2
            error? := some (AuditError.storage n) }
        | none =>
          { store :=
              applyWrite (storeCreateRow store data.tableName (eraseKey data.attrs "tableName")).1
                (Write.auditInsert (createAuditRow data.tableName model
                  (eraseKey data.attrs "tableName")
                  (storeCreateRow store data.tableName (eraseKey data.attrs "tableName")).2
                  (mintUuid ctr).1 changedBy))
            nextUuid := (mintUuid ctr).2
            entries := [createAuditRow data.tableName model
              (eraseKey data.attrs "tableName")
              (storeCreateRow store data.tableName (eraseKey data.attrs "tableName")).2
              (mintUuid ctr).1 changedBy] }

/-- The DELETE audit row (src lines 144-155): `oldValue` is the full pre-delete
snapshot of the model, `newValue` is null. -/
def destroyAuditRow (model : DBModel) (u : Nat) (changedBy : Int) : AuditEntry :=
  { changesetUuidBin := u
    tableName := model.tableName
    fieldName := none
    action := some "DELETE"
    primaryKey := getPrimaryKeyForModel model
    oldValue := Value.obj model.attrs
    newValue := Value.prim Prim.null
    oldLabel := labelValue model.labelCap (Value.obj model.attrs)
    newLabel := none
    changedBy := changedBy }

/-- Function `destroyModel` (src lines 136-159), with its storage thunks run in place: re-run
`verifyArguments` on the singleton change-set, destroy the row, then insert the
DELETE audit row built by `destroyAuditRow`. -/
def destroyModel (failOn : Write → Option Nat) (user? : Option DashboardUser)
    (model? : Option DBModel) (changedBy : Int) (store : Store) (ctr : Nat) : ExecResult :=
  match verifyArguments user? [model?] with
  | some e => { store := store, nextUuid := ctr, error? := some e }
  | none =>
    match model? with
    | none => { store := store, nextUuid := ctr, error? := some AuditError.typeError }
    | some model =>
      match failOn (Write.destroyRow model.tableName model.primaryKeyAttributes
          (getPrimaryKeyForModel model)) with
      | some n => { store := store, nextUuid := ctr, error? := some (AuditError.storage n) }
      | none =>
        match failOn (Write.auditInsert (destroyAuditRow model (mintUuid ctr).1 changedBy)) with
        | some n =>
          { store := storeDestroyRow store model.tableName model.primaryKeyAttributes
              (getPrimaryKeyForModel model)
            nextUuid := (mintUuid ctr).2
            error? := some (AuditError.storage n) }
        | none =>
          { store :=
              applyWrite (storeDestroyRow store model.tableName model.primaryKeyAttributes
                  (getPrimaryKeyForModel model))
                (Write.auditInsert (destroyAuditRow model (mintUuid ctr).1 changedBy))
            nextUuid := (mintUuid ctr).2
            entries := [destroyAuditRow model (mintUuid ctr).1 changedBy] }

/-- The `oldValue`/`newValue` objects built per model (src lines 173-178). The old
map collects `model.previous(fieldName)` under each dirty field name; the new map is
written through the computed key `newValue[newValue]` — the object itself, which JS
stringifies to "[object Object]" — so each iteration overwrites the same key and the
map ends up holding only the last dirty field's current value. -/
def buildOldNew (model : DBModel) : List (String × Prim) × List (String × Prim) :=
  model.dirty.foldl
    (fun acc fieldName =>
      (setKey acc.1 fieldName (getAttr model.previousAttrs fieldName),
       setKey acc.2 (objToKeyString acc.2) (getAttr model.attrs fieldName)))
    ([], [])

/-- The audit rows built for one model of an UPDATE change-set (src lines 180-192):
one row per dirty field, each carrying the whole accumulated old/new maps. The row
shape has a `fieldName` but no `action` column. The source's `newLabel:
labelValue(newLabel)` references `newLabel`, unbound at that point; the binding
evidently meant — parallel to `oldLabel: labelValue(oldValue)` on the previous
line — is the just-built new-value map. -/
def updateEntriesForModel (uuidString : Nat) (changedBy : Int) (model : DBModel) :
    List AuditEntry :=
  let oldValue := (buildOldNew model).1
  let newValue := (buildOldNew model).2
  model.dirty.map (fun fieldName =>
    { changesetUuidBin := uuidString
      tableName := model.tableName
      fieldName := some fieldName
      action := none
      primaryKey := getPrimaryKeyForModel model
      oldValue := Value.obj oldValue
      newValue := Value.obj newValue
      oldLabel := labelValue model.labelCap (Value.obj oldValue)
      newLabel := labelValue model.labelCap (Value.obj newValue)
      changedBy := changedBy })

/-- The write plan for one model of an UPDATE change-set (src line 193): the audit
inserts, then `model.save()`. -/
def updatePlanForModel (uuidString : Nat) (changedBy : Int) (model : DBModel) : List Write :=
  (updateEntriesForModel uuidString changedBy model).map Write.auditInsert
    ++ [Write.saveRow model.tableName model.primaryKeyAttributes
          (getPrimaryKeyForModel model) model.attrs]

/-- Function `updateChangeSet` (src lines 167-202), with its reducer plumbing run in place:
mint the shared changeset uuid once, drop the members whose `changed()` is `false`
(zero dirty fields), and run each kept member's audit inserts followed by its save,
in change-set order. -/
def updateChangeSet (failOn : Write → Option Nat) (changeSet : List DBModel)
    (changedBy : Int) (store : Store) (ctr : Nat) : ExecResult :=
  match runPlan failOn store
      (((changeSet.filter (fun model => !model.dirty.isEmpty)).map
        (updatePlanForModel (mintUuid ctr).1 changedBy)).flatten) with
  | (store1, some e) => { store := store1, nextUuid := (mintUuid ctr).2, error? := some e }
  | (store1, none) =>
    { store := store1
      nextUuid := (mintUuid ctr).2
      entries := ((changeSet.filter (fun model => !model.dirty.isEmpty)).map
        (updateEntriesForModel (mintUuid ctr).1 changedBy)).flatten }

/-- Line 235: `this.#transaction ? manageTransaction : true`. -/
def manageTransactionInternally (svc : AuditLogService) (manageTransaction : Bool) : Bool :=
  match svc.transaction with
  | some _ => manageTransaction
  | none => true

/-- Rolling back the transaction opened at src line 222. No storage call issued by
`createModel`, `destroyModel` or `updateChangeSet` passes a transaction option, so
the transaction covers no writes and rolling it back removes nothing from the
store. -/
def rollbackTransaction (store : Store) : Store :=
  store

/-- The builder dispatch of `execute` (src lines 223-233): pick the builder for the
action and run it with `this.#user.id` as the acting identity. -/
def dispatchAction (svc : AuditLogService) (action : String) (changeSet : List DBModel)
    (dbModels : List (String × RegisteredModel)) (failOn : Write → Option Nat)
    (store : Store) (ctr : Nat) : ExecResult :=
  if action == "UPDATE" then
    updateChangeSet failOn changeSet ((svc.user.map (fun u => u.id)).getD 0) store ctr
  else if action == "CREATE" then
    createModel dbModels failOn changeSet.head? ((svc.user.map (fun u => u.id)).getD 0) store ctr
  else
    destroyModel failOn svc.user changeSet.head? ((svc.user.map (fun u => u.id)).getD 0) store ctr

/-- Function `execute` (src lines 211-249): verify arguments (user, then member support), then
the action keyword, then the CREATE/DELETE cardinality bound `changeSet.length > 1`;
dispatch to the builder for the action; on any failure roll the (empty) transaction
back when internally managed and re-raise the same error. -/
def execute (svc : AuditLogService) (action : String) (changeSet : List DBModel)
    (manageTransaction : Bool) (dbModels : List (String × RegisteredModel))
    (failOn : Write → Option Nat) (store : Store) (ctr : Nat) : ExecResult :=
  match verifyArguments svc.user (changeSet.map some) with
  | some e => { store := store, nextUuid := ctr, error? := some e }
  | none =>
    if !(AUDIT_ACTIONS.contains action) then
      { store := store, nextUuid := ctr, error? := some AuditError.invalidAction }
    else if (action == "CREATE" || action == "DELETE") && decide (1 < changeSet.length) then
      { store := store, nextUuid := ctr, error? := some AuditError.invalidChangeSet }
    else
      match (dispatchAction svc action changeSet dbModels failOn store ctr).error? with
      | some e =>
        { dispatchAction svc action changeSet dbModels failOn store ctr with
          store :=
            if manageTransactionInternally svc manageTransaction then
              rollbackTransaction (dispatchAction svc action changeSet dbModels failOn store ctr).store
            else (dispatchAction svc action changeSet dbModels failOn store ctr).store
          error? := some e }
      | none => dispatchAction svc action changeSet dbModels failOn store ctr

/-- Builder method `withUser` (src lines 56-59). -/
def withUser (svc : AuditLogService) (user : DashboardUser) : AuditLogService :=
  { svc with user := some user }

/-- Builder method `withTransaction` (src lines 67-70). -/
def withTransaction (svc : AuditLogService) (transaction : Nat) : AuditLogService :=
  { svc with transaction := some transaction }

end AuditLogService

/-- Export `init` of the module (src line 254). -/
def init : AuditLogService :=
  {}

/-- The plain data object `{...data, tableName}` the exported `create` wraps into the
change-set (src line 255): not a sequelize model instance, no primary-key
attributes, no label capability. -/
def plainDataObject (tableName : String) (data : List (String × Prim)) : DBModel :=
  { tableName := tableName
    primaryKeyAttributes := []
    attrs := setKey data "tableName" (Prim.str tableName)
    previousAttrs := []
    dirty := []
    labelCap := none
    isSequelizeModel := false }

/-- Exported `create` (src line 255). -/
def create (svc : AuditLogService) (tableName : String) (data : List (String × Prim))
    (manageTransaction : Bool) (dbModels : List (String × RegisteredModel))
    (failOn : Write → Option Nat) (store : Store) (ctr : Nat) : ExecResult :=
  AuditLogService.execute svc "CREATE" [plainDataObject tableName data]
    manageTransaction dbModels failOn store ctr

/-- Exported `delete` (src line 256). The source dispatches `AUDIT_ACTIONS.CREATE`
for it. -/
def delete (svc : AuditLogService) (model : DBModel) (manageTransaction : Bool)
    (dbModels : List (String × RegisteredModel)) (failOn : Write → Option Nat)
    (store : Store) (ctr : Nat) : ExecResult :=
  AuditLogService.execute svc "CREATE" [model] manageTransaction dbModels failOn store ctr

/-- Exported `update` (src line 257). -/
def update (svc : AuditLogService) (changeSet : List DBModel) (manageTransaction : Bool)
    (dbModels : List (String × RegisteredModel)) (failOn : Write → Option Nat)
    (store : Store) (ctr : Nat) : ExecResult :=
  AuditLogService.execute svc "UPDATE" changeSet manageTransaction dbModels failOn store ctr

/-! ## Concrete fixtures used by the claim theorems -/

/-- A failure oracle under which every storage write succeeds. -/
def noFail : Write → Option Nat :=
  fun _ => none

/-- The acting user of the worked examples (id 13, as in the repository README). -/
def user13 : DashboardUser :=
  { id := 13 }

/-- A service with the user bound and no external transaction. -/
def svc13 : AuditLogService :=
  AuditLogService.withUser init user13

/-- Attributes of the delivery-settings record of the worked examples. -/
def deliveryAttrs : List (String × Prim) :=
  [("id", Prim.num 41), ("deliveryRangeMiles", Prim.num 100)]

/-- A registered, single-key sequelize record with no pending changes. -/
def deliveryModel : DBModel :=
  { tableName := "DeliverySettingsProfile"
    primaryKeyAttributes := ["id"]
    attrs := deliveryAttrs
    previousAttrs := deliveryAttrs
    dirty := []
    labelCap := none
    isSequelizeModel := true }

/-- A registry knowing the delivery-settings table. -/
def regDelivery : List (String × RegisteredModel) :=
  [("DeliverySettingsProfile", { primaryKeyAttributes := ["id"], labelCap := none })]

/-- A store already holding the delivery-settings row. -/
def storeDelivery : Store :=
  { rows := [("DeliverySettingsProfile", deliveryAttrs)], auditLog := [], nextId := 90 }

/-- The exported `delete` applied to the registered record, with user 13 bound. -/
def c1run : ExecResult :=
  delete svc13 deliveryModel true regDelivery noFail storeDelivery 0

/-- C1: the public `delete(record)` operation does not perform the DELETE action.
Line 256 of the source dispatches `AUDIT_ACTIONS.CREATE`, so with a valid actor bound
the call inserts a copy of the record and exactly one CREATE audit entry — the stored
record is not destroyed (it is still the first row afterwards), the entry's action is
CREATE, and its `newValue` is the record's data rather than null. -/
theorem c1_public_delete_dispatches_create :
    c1run.error? = none ∧
    c1run.entries.map (fun e => e.action) = [some "CREATE"] ∧
    c1run.entries.map (fun e => e.newValue) = [Value.obj deliveryAttrs] ∧
    c1run.store.rows =
      [("DeliverySettingsProfile", deliveryAttrs), ("DeliverySettingsProfile", deliveryAttrs)] ∧
    c1run.store.auditLog.map (fun e => e.action) = [some "CREATE"] := by
  decide

/-- Current attributes of the first record of the failing-update scenario. -/
def rowA : List (String × Prim) :=
  [("id", Prim.num 1), ("feeCents", Prim.num 100)]

/-- Last-persisted attributes of the first record of the failing-update scenario. -/
def rowAprev : List (String × Prim) :=
  [("id", Prim.num 1), ("feeCents", Prim.num 90)]

/-- First record of the failing-update scenario: one dirty field. -/
def modelA : DBModel :=
  { tableName := "TA"
    primaryKeyAttributes := ["id"]
    attrs := rowA
    previousAttrs := rowAprev
    dirty := ["feeCents"]
    labelCap := none
    isSequelizeModel := true }

/-- Current attributes of the second record of the failing-update scenario. -/
def rowB : List (String × Prim) :=
  [("id", Prim.num 2), ("feeCents", Prim.num 200)]

/-- Last-persisted attributes of the second record of the failing-update scenario. -/
def rowBprev : List (String × Prim) :=
  [("id", Prim.num 2), ("feeCents", Prim.num 180)]

/-- Second record of the failing-update scenario: one dirty field. -/
def modelB : DBModel :=
  { tableName := "TB"
    primaryKeyAttributes := ["id"]
    attrs := rowB
    previousAttrs := rowBprev
    dirty := ["feeCents"]
    labelCap := none
    isSequelizeModel := true }

/-- A storage collaborator that rejects the second record's audit insert with its own
error 7 and accepts everything else. -/
def failSecondAudit : Write → Option Nat :=
  fun w =>
    match w with
    | Write.auditInsert e => if e.tableName == "TB" then some 7 else none
    | _ => none

/-- A store holding the two last-persisted rows of the failing-update scenario. -/
def storeAB : Store :=
  { rows := [("TA", rowAprev), ("TB", rowBprev)], auditLog := [], nextId := 5 }

/-- The exported `update` applied to the two-record change-set under the collaborator
that rejects the second audit insert. -/
def c2run : ExecResult :=
  update svc13 [modelA, modelB] true [] failSecondAudit storeAB 0

/-- C2: partial writes are visible outside the transaction boundary. The transaction
`execute` opens is never passed to any storage call, so when the storage collaborator
fails the second record's audit insert (its own error 7), the first record's already
written audit row and saved data row survive the rollback; the collaborator's error is
re-raised unchanged. -/
theorem c2_leftover_write_survives_failed_invocation :
    c2run.error? = some (AuditError.storage 7) ∧
    c2run.store.auditLog.map (fun e => e.tableName) = ["TA"] ∧
    c2run.store.rows = [("TA", rowA), ("TB", rowBprev)] := by
  decide

/-- Current attributes of the composite-key record. -/
def compositeAttrs : List (String × Prim) :=
  [("profileId", Prim.num 1), ("distanceMiles", Prim.num 2), ("feeCents", Prim.num 5)]

/-- Last-persisted attributes of the composite-key record. -/
def compositePrev : List (String × Prim) :=
  [("profileId", Prim.num 1), ("distanceMiles", Prim.num 2), ("feeCents", Prim.num 4)]

/-- A supported record whose primary key is composite (two key attributes) and which
has one dirty field. -/
def compositeModel : DBModel :=
  { tableName := "DeliveryFeeByDistance"
    primaryKeyAttributes := ["profileId", "distanceMiles"]
    attrs := compositeAttrs
    previousAttrs := compositePrev
    dirty := ["feeCents"]
    labelCap := none
    isSequelizeModel := true }

/-- C3 counterexample: a change-set member with a composite primary key (two key
attributes) is not rejected — no UnsupportedKeyError exists anywhere in the service —
and the record is processed to completion, its audit entry carrying the comma-joined
key "1,2". -/
theorem c3_composite_key_processed_not_rejected :
    let r := update svc13 [compositeModel] true [] noFail {} 0
    r.error? = none ∧
    r.entries.map (fun e => e.primaryKey) = ["1,2"] ∧
    r.store.auditLog.length = 1 := by
  decide

/-- A change-set member that is not a sequelize model instance. -/
def plainObjectMember : DBModel :=
  plainDataObject "X" []

/-- C4 counterexample: with the actor present, an invalid action ("ARCHIVE") and an
unsupported change-set member together, validation fails with InvalidChangeSetError —
the member-support check of `verifyArguments` runs before the action check — not with
the InvalidActionError the claim requires. -/
theorem c4_invalid_action_with_unsupported_member :
    let r := AuditLogService.execute svc13 "ARCHIVE" [plainObjectMember] true [] noFail {} 0
    r.error? = some AuditError.invalidChangeSet ∧
    r.error? ≠ some AuditError.invalidAction := by
  decide

/-- Current attributes of the two-dirty-field record: a is 2, b is 4. -/
def twoFieldAttrs : List (String × Prim) :=
  [("id", Prim.num 9), ("a", Prim.num 2), ("b", Prim.num 4)]

/-- Last-persisted attributes of the two-dirty-field record: a was 1, b was 3. -/
def twoFieldPrev : List (String × Prim) :=
  [("id", Prim.num 9), ("a", Prim.num 1), ("b", Prim.num 3)]

/-- A record with two dirty fields, a: 1 to 2 and b: 3 to 4. -/
def twoFieldModel : DBModel :=
  { tableName := "T"
    primaryKeyAttributes := ["id"]
    attrs := twoFieldAttrs
    previousAttrs := twoFieldPrev
    dirty := ["a", "b"]
    labelCap := none
    isSequelizeModel := true }

/-- A record with zero dirty fields, included to exercise the no-op contribution. -/
def cleanModel : DBModel :=
  { tableName := "T"
    primaryKeyAttributes := ["id"]
    attrs := [("id", Prim.num 10)]
    previousAttrs := [("id", Prim.num 10)]
    dirty := []
    labelCap := none
    isSequelizeModel := true }

/-- The exported `update` applied to the two-dirty-field record plus a zero-dirty
record, under a collaborator that accepts everything. -/
def c5run : ExecResult :=
  update svc13 [twoFieldModel, cleanModel] true [] noFail {} 0

/-- C5: the per-entry count is right but the per-entry values are not. Updating a
record whose dirty fields are a: 1 to 2 and b: 3 to 4 (plus a zero-dirty record that
contributes nothing and raises nothing) produces exactly one entry per dirty field,
but each entry's `oldValue` is the map of ALL dirty fields' old values, and each
entry's `newValue` is a map under the single key "[object Object]" holding only the
LAST dirty field's current value (the `newValue[newValue]` assignment at src line
177) — not the single field's old and new values the claim states. -/
theorem c5_update_entries_carry_aggregated_maps :
    c5run.error? = none ∧
    c5run.entries.map (fun e => e.fieldName) = [some "a", some "b"] ∧
    c5run.entries.map (fun e => e.oldValue) =
      [Value.obj [("a", Prim.num 1), ("b", Prim.num 3)],
       Value.obj [("a", Prim.num 1), ("b", Prim.num 3)]] ∧
    c5run.entries.map (fun e => e.newValue) =
      [Value.obj [("[object Object]", Prim.num 4)],
       Value.obj [("[object Object]", Prim.num 4)]] := by
  decide

/-- A registry knowing the fee table, keyed on the generated id. -/
def feeReg : List (String × RegisteredModel) :=
  [("Fee", { primaryKeyAttributes := ["id"], labelCap := none })]

/-- The supplied attributes of the new fee record (no id yet). -/
def feeData : List (String × Prim) :=
  [("profileId", Prim.num 42), ("distanceMiles", Prim.num 200)]

/-- The change-set member of the CREATE scenario (a supported instance carrying the
supplied attributes). -/
def feeMember : DBModel :=
  { tableName := "Fee"
    primaryKeyAttributes := ["id"]
    attrs := feeData
    previousAttrs := []
    dirty := []
    labelCap := none
    isSequelizeModel := true }

/-- A store whose next generated id is 7. -/
def storeFee : Store :=
  { rows := [], auditLog := [], nextId := 7 }

/-- C6 counterexample: a successful CREATE whose stored row receives the generated
primary key 7 produces one entry with `oldValue` null, but its `newValue` is the
supplied attribute set only — it omits the generated key, which differs from the full
persisted attribute set; the generated key appears only in the `primaryKey` column. -/
theorem c6_create_newvalue_omits_generated_key :
    let r := AuditLogService.execute svc13 "CREATE" [feeMember] true feeReg noFail storeFee 0
    r.error? = none ∧
    r.entries.map (fun e => e.oldValue) = [Value.prim Prim.null] ∧
    r.entries.map (fun e => e.newValue) = [Value.obj feeData] ∧
    r.entries.map (fun e => e.primaryKey) = ["7"] ∧
    r.store.rows = [("Fee", feeData ++ [("id", Prim.num 7)])] ∧
    Value.obj feeData ≠ Value.obj (feeData ++ [("id", Prim.num 7)]) := by
  decide

/-- C8 counterexample: the cardinality guard is `changeSet.length > 1`, so a
zero-member CREATE is not rejected with InvalidChangeSetError — it proceeds past
validation and fails with a TypeError when `createModel` destructures
`changeSet[0] = undefined`. No storage write happens. -/
theorem c8_zero_member_create_not_changeset_error :
    let r := AuditLogService.execute svc13 "CREATE" [] true [] noFail {} 0
    r.error? = some AuditError.typeError ∧
    r.error? ≠ some AuditError.invalidChangeSet ∧
    r.store = {} := by
  decide

/-! ## Helper lemmas -/

/-- Under a collaborator that accepts every write, a plan runs to completion. -/
theorem runPlan_noFail (ws : List Write) : ∀ s : Store,
    runPlan noFail s ws = (ws.foldl applyWrite s, none) := by
  induction ws with
  | nil => intro s; rfl
  | cons w ws ih => intro s; simpa [runPlan, noFail] using ih (applyWrite s w)

/-- Field values of the update rows built for one model: the shared uuid, the model's
primary key, and the labels resolved against the accumulated maps. -/
theorem updateEntriesForModel_fields (u : Nat) (cb : Int) (m : DBModel) :
    ∀ e ∈ AuditLogService.updateEntriesForModel u cb m,
      e.changesetUuidBin = u ∧ e.primaryKey = getPrimaryKeyForModel m ∧
      e.oldLabel = labelValue m.labelCap (Value.obj (AuditLogService.buildOldNew m).1) ∧
      e.newLabel = labelValue m.labelCap (Value.obj (AuditLogService.buildOldNew m).2) := by
  intro e he
  simp only [AuditLogService.updateEntriesForModel, List.mem_map] at he
  obtain ⟨f, _, rfl⟩ := he
  exact ⟨rfl, rfl, rfl, rfl⟩

/-- Every entry `createModel` produces carries the uuid minted from the given supply,
which is then advanced by one. -/
theorem createModel_uuid (dbModels : List (String × RegisteredModel))
    (failOn : Write → Option Nat) (data? : Option DBModel) (cb : Int) (s : Store) (c : Nat) :
    ∀ e ∈ (AuditLogService.createModel dbModels failOn data? cb s c).entries,
      e.changesetUuidBin = c ∧
      (AuditLogService.createModel dbModels failOn data? cb s c).nextUuid = c + 1 := by
  unfold AuditLogService.createModel
  split
  · simp
  · split
    · simp
    · split
      · simp
      · split
        · simp
        · simp [AuditLogService.createAuditRow, mintUuid]

/-- Every entry `destroyModel` produces carries the uuid minted from the given supply,
which is then advanced by one. -/
theorem destroyModel_uuid (failOn : Write → Option Nat) (user? : Option DashboardUser)
    (model? : Option DBModel) (cb : Int) (s : Store) (c : Nat) :
    ∀ e ∈ (AuditLogService.destroyModel failOn user? model? cb s c).entries,
      e.changesetUuidBin = c ∧
      (AuditLogService.destroyModel failOn user? model? cb s c).nextUuid = c + 1 := by
  unfold AuditLogService.destroyModel
  split
  · simp
  · split
    · simp
    · split
      · simp
      · split
        · simp
        · simp [AuditLogService.destroyAuditRow, mintUuid]

/-- Function `updateChangeSet` always advances the uuid supply by exactly one: the changeset
uuid is minted once per invocation. -/
theorem updateChangeSet_nextUuid (failOn : Write → Option Nat) (cs : List DBModel)
    (cb : Int) (s : Store) (c : Nat) :
    (AuditLogService.updateChangeSet failOn cs cb s c).nextUuid = c + 1 := by
  unfold AuditLogService.updateChangeSet
  split <;> rfl

/-- Every entry `updateChangeSet` produces carries the single uuid minted from the
given supply. -/
theorem updateChangeSet_uuid (failOn : Write → Option Nat) (cs : List DBModel)
    (cb : Int) (s : Store) (c : Nat) :
    ∀ e ∈ (AuditLogService.updateChangeSet failOn cs cb s c).entries,
      e.changesetUuidBin = c := by
  unfold AuditLogService.updateChangeSet
  split
  · simp
  · intro e he
    simp only [List.mem_flatten, List.mem_map, mintUuid] at he
    obtain ⟨l, ⟨m, _, rfl⟩, hel⟩ := he
    exact (updateEntriesForModel_fields c cb m e hel).1

/-- Every entry the dispatched builder produces carries the uuid minted from the
given supply, which is then advanced by one. -/
theorem dispatchAction_uuid (svc : AuditLogService) (action : String) (cs : List DBModel)
    (dbModels : List (String × RegisteredModel)) (failOn : Write → Option Nat)
    (s : Store) (c : Nat) :
    ∀ e ∈ (AuditLogService.dispatchAction svc action cs dbModels failOn s c).entries,
      e.changesetUuidBin = c ∧
      (AuditLogService.dispatchAction svc action cs dbModels failOn s c).nextUuid = c + 1 := by
  unfold AuditLogService.dispatchAction
  split
  · intro e he
    exact ⟨updateChangeSet_uuid _ _ _ _ _ e he,
      updateChangeSet_nextUuid _ _ _ _ _⟩
  · split
    · exact createModel_uuid _ _ _ _ _ _
    · exact destroyModel_uuid _ _ _ _ _ _

/-- Every entry one invocation of `execute` produces carries the uuid minted from the
invocation's supply, which the invocation advances by one. -/
theorem execute_entries_uuid (svc : AuditLogService) (action : String) (cs : List DBModel)
    (mt : Bool) (dbModels : List (String × RegisteredModel)) (failOn : Write → Option Nat)
    (s : Store) (c : Nat) :
    ∀ e ∈ (AuditLogService.execute svc action cs mt dbModels failOn s c).entries,
      e.changesetUuidBin = c ∧
      (AuditLogService.execute svc action cs mt dbModels failOn s c).nextUuid = c + 1 := by
  unfold AuditLogService.execute
  split
  · simp
  · split
    · simp
    · split
      · simp
      · split
        · exact dispatchAction_uuid _ _ _ _ _ _ _
        · exact dispatchAction_uuid _ _ _ _ _ _ _

/-- When validation passes, `execute` returns exactly what the dispatched builder
returns: on a builder failure the catch block rolls back a transaction that covers no
writes (a store no-op) and re-raises the very same error, so the rebuilt result is
the builder's result. -/
theorem execute_eq_dispatch (svc : AuditLogService) (action : String) (cs : List DBModel)
    (mt : Bool) (dbModels : List (String × RegisteredModel)) (failOn : Write → Option Nat)
    (s : Store) (c : Nat)
    (hv : AuditLogService.verifyArguments svc.user (cs.map some) = none)
    (ha : AUDIT_ACTIONS.contains action = true)
    (hc : ((action == "CREATE" || action == "DELETE") && decide (1 < cs.length)) = false) :
    AuditLogService.execute svc action cs mt dbModels failOn s c =
      AuditLogService.dispatchAction svc action cs dbModels failOn s c := by
  unfold AuditLogService.execute
  rw [hv]
  simp only [ha, hc, Bool.not_true, Bool.false_eq_true, if_false]
  cases he : (AuditLogService.dispatchAction svc action cs dbModels failOn s c).error? with
  | none => simp [he]
  | some e =>
    simp only [he, AuditLogService.rollbackTransaction, ite_self]
    rw [← he]

/-- With an initialized user and only supported members, `verifyArguments` passes. -/
theorem verifyArguments_ok (usr : DashboardUser) (cs : List DBModel)
    (hall : cs.all (fun m => m.isSequelizeModel) = true) :
    AuditLogService.verifyArguments (some usr) (cs.map some) = none := by
  unfold AuditLogService.verifyArguments
  have h2 : ∀ l : List DBModel,
      (l.map some).all AuditLogService.supportedModel = l.all (fun m => m.isSequelizeModel) := by
    intro l
    induction l with
    | nil => rfl
    | cons x xs ih => simp [List.all_cons, ih, AuditLogService.supportedModel]
  simp [h2, hall]

/-- A valid UPDATE invocation of `execute` is exactly `updateChangeSet`. -/
theorem execute_valid_update (svc : AuditLogService) (usr : DashboardUser)
    (cs : List DBModel) (mt : Bool) (dbModels : List (String × RegisteredModel))
    (failOn : Write → Option Nat) (s : Store) (c : Nat)
    (hu : svc.user = some usr)
    (hall : cs.all (fun m => m.isSequelizeModel) = true) :
    AuditLogService.execute svc "UPDATE" cs mt dbModels failOn s c =
      AuditLogService.updateChangeSet failOn cs usr.id s c := by
  rw [execute_eq_dispatch _ _ _ _ _ _ _ _
    (by rw [hu]; exact verifyArguments_ok usr cs hall) (by decide) (by rfl)]
  unfold AuditLogService.dispatchAction
  rw [hu]
  rfl

/-- A valid singleton CREATE invocation of `execute` is exactly `createModel`. -/
theorem execute_valid_create (svc : AuditLogService) (usr : DashboardUser) (m : DBModel)
    (mt : Bool) (dbModels : List (String × RegisteredModel)) (failOn : Write → Option Nat)
    (s : Store) (c : Nat)
    (hu : svc.user = some usr)
    (hm : m.isSequelizeModel = true) :
    AuditLogService.execute svc "CREATE" [m] mt dbModels failOn s c =
      AuditLogService.createModel dbModels failOn (some m) usr.id s c := by
  rw [execute_eq_dispatch _ _ _ _ _ _ _ _
    (by rw [hu]; exact verifyArguments_ok usr [m] (by simp [hm])) (by decide) (by rfl)]
  unfold AuditLogService.dispatchAction
  rw [hu]
  rfl

/-- C3 amended: composite-key members are not rejected and no UnsupportedKeyError
exists; validation and processing are independent of the number of primary-key
attributes. For every supported member, an UPDATE execution with a bound actor
succeeds, and each produced entry's `primaryKey` is the member's key attribute
values comma-joined (`getPrimaryKeyForModel`, src lines 26-33). -/
theorem c3_amended_composite_keys_comma_joined (usr : DashboardUser) (m : DBModel)
    (s : Store) (c : Nat) (hm : m.isSequelizeModel = true) :
    (update (AuditLogService.withUser init usr) [m] true [] noFail s c).error? = none ∧
    (∀ e ∈ (update (AuditLogService.withUser init usr) [m] true [] noFail s c).entries,
      e.primaryKey = getPrimaryKeyForModel m) ∧
    getPrimaryKeyForModel m =
      String.intercalate ","
        (m.primaryKeyAttributes.map (fun a => jsJoinString (getAttr m.attrs a))) := by
  have h := execute_valid_update (AuditLogService.withUser init usr) usr [m] true [] noFail
    s c rfl (by simp [hm])
  unfold update
  rw [h]
  refine ⟨?_, ?_, rfl⟩
  · unfold AuditLogService.updateChangeSet
    rw [runPlan_noFail]
  · intro e he
    unfold AuditLogService.updateChangeSet at he
    rw [runPlan_noFail] at he
    simp only [List.mem_flatten, List.mem_map, mintUuid] at he
    obtain ⟨l, ⟨m', hm', rfl⟩, hel⟩ := he
    have hmm : m' = m := by
      have := List.mem_filter.mp hm'
      simpa using this.1
    rw [← hmm]
    exact (updateEntriesForModel_fields _ _ _ e hel).2.1

/-- Witness for the amended C3 statement at the concrete composite-key record. -/
theorem c3_amended_composite_keys_comma_joined_witness :
    (update (AuditLogService.withUser init user13) [compositeModel] true [] noFail {} 0).error?
        = none ∧
    (∀ e ∈ (update (AuditLogService.withUser init user13) [compositeModel] true [] noFail
        {} 0).entries,
      e.primaryKey = getPrimaryKeyForModel compositeModel) ∧
    getPrimaryKeyForModel compositeModel =
      String.intercalate ","
        (compositeModel.primaryKeyAttributes.map
          (fun a => jsJoinString (getAttr compositeModel.attrs a))) :=
  c3_amended_composite_keys_comma_joined user13 compositeModel {} 0 (by decide)

/-- C4 amended: the checks short-circuit in the order the code runs them — missing
actor first (MisconfiguredError regardless of any other defect), then member support,
and only then the action keyword: InvalidActionError is raised for an unsupported
action exactly when the actor is present and every member is supported. -/
theorem c4_amended_validation_order (svc : AuditLogService) (action : String)
    (cs : List DBModel) (mt : Bool) (dbModels : List (String × RegisteredModel))
    (failOn : Write → Option Nat) (s : Store) (c : Nat) :
    (svc.user = none →
      (AuditLogService.execute svc action cs mt dbModels failOn s c).error? =
        some AuditError.misConfigured) ∧
    (svc.user.isSome = true → cs.all (fun m => m.isSequelizeModel) = true →
      AUDIT_ACTIONS.contains action = false →
      (AuditLogService.execute svc action cs mt dbModels failOn s c).error? =
        some AuditError.invalidAction) := by
  constructor
  · intro hu
    unfold AuditLogService.execute AuditLogService.verifyArguments
    rw [hu]
    rfl
  · intro hu hall ha
    obtain ⟨usr, hu'⟩ := Option.isSome_iff_exists.mp hu
    unfold AuditLogService.execute
    rw [hu', verifyArguments_ok usr cs hall, ha]
    rfl

/-- Witness for the amended C4 statement: a service with no user raises
MisconfiguredError for an unknown action, and the configured service raises
InvalidActionError for the unknown action "ARCHIVE" on a supported change-set. -/
theorem c4_amended_validation_order_witness :
    (AuditLogService.execute init "ARCHIVE" [] true [] noFail {} 0).error? =
      some AuditError.misConfigured ∧
    (AuditLogService.execute svc13 "ARCHIVE" [deliveryModel] true [] noFail {} 0).error? =
      some AuditError.invalidAction :=
  ⟨(c4_amended_validation_order init "ARCHIVE" [] true [] noFail {} 0).1 rfl,
   (c4_amended_validation_order svc13 "ARCHIVE" [deliveryModel] true [] noFail {} 0).2
     (by decide) (by decide) (by decide)⟩

/-- C6 amended: for every successful CREATE execution, exactly one AuditEntry is
produced with `oldValue` null and `action` CREATE, but its `newValue` is the supplied
attribute set (with `tableName` stripped) as passed in — the database-generated
primary key is not part of `newValue`; it is recorded only in the entry's
`primaryKey` column. -/
theorem c6_amended_create_entry_shape (svc : AuditLogService) (usr : DashboardUser)
    (m : DBModel) (mt : Bool) (dbModels : List (String × RegisteredModel))
    (rm : RegisteredModel) (s : Store) (c : Nat)
    (hu : svc.user = some usr) (hm : m.isSequelizeModel = true)
    (hreg : dbModelsLookup dbModels m.tableName = some rm) :
    (AuditLogService.execute svc "CREATE" [m] mt dbModels noFail s c).error? = none ∧
    (AuditLogService.execute svc "CREATE" [m] mt dbModels noFail s c).entries.length = 1 ∧
    ∀ e ∈ (AuditLogService.execute svc "CREATE" [m] mt dbModels noFail s c).entries,
      e.oldValue = Value.prim Prim.null ∧
      e.newValue = Value.obj (eraseKey m.attrs "tableName") ∧
      e.action = some "CREATE" ∧
      e.primaryKey =
        getPrimaryKeyOfAttrs rm.primaryKeyAttributes
          (storeCreateRow s m.tableName (eraseKey m.attrs "tableName")).2 := by
  rw [execute_valid_create svc usr m mt dbModels noFail s c hu hm]
  simp only [AuditLogService.createModel]
  rw [hreg]
  refine ⟨rfl, rfl, ?_⟩
  intro e he
  simp only [noFail, List.mem_singleton] at he
  subst he
  exact ⟨rfl, rfl, rfl, rfl⟩

/-- Witness for the amended C6 statement at the concrete fee record, whose stored row
receives the generated key 7. -/
theorem c6_amended_create_entry_shape_witness :
    (AuditLogService.execute svc13 "CREATE" [feeMember] true feeReg noFail storeFee 0).error?
        = none ∧
    (AuditLogService.execute svc13 "CREATE" [feeMember] true feeReg noFail
        storeFee 0).entries.length = 1 ∧
    ∀ e ∈ (AuditLogService.execute svc13 "CREATE" [feeMember] true feeReg noFail
        storeFee 0).entries,
      e.oldValue = Value.prim Prim.null ∧
      e.newValue = Value.obj (eraseKey feeMember.attrs "tableName") ∧
      e.action = some "CREATE" ∧
      e.primaryKey =
        getPrimaryKeyOfAttrs ["id"]
          (storeCreateRow storeFee feeMember.tableName
            (eraseKey feeMember.attrs "tableName")).2 := by
  exact c6_amended_create_entry_shape svc13 user13 feeMember true feeReg
    { primaryKeyAttributes := ["id"], labelCap := none } storeFee 0 rfl rfl rfl

/-- C7: all audit entries produced by one invocation of `execute` carry one identical
correlation identifier — the uuid minted once from the invocation's fresh supply —
and entries of two invocations, the second drawing from at or past the supply the
first handed back, never share an identifier. -/
theorem c7_correlation_identifier_shared_and_fresh
    (svc : AuditLogService) (action : String) (cs : List DBModel) (mt : Bool)
    (dbModels : List (String × RegisteredModel)) (failOn : Write → Option Nat)
    (s : Store) (c : Nat)
    (svc2 : AuditLogService) (action2 : String) (cs2 : List DBModel) (mt2 : Bool)
    (dbModels2 : List (String × RegisteredModel)) (failOn2 : Write → Option Nat)
    (s2 : Store) (c2 : Nat)
    (h : (AuditLogService.execute svc action cs mt dbModels failOn s c).nextUuid ≤ c2) :
    (∀ e1 ∈ (AuditLogService.execute svc action cs mt dbModels failOn s c).entries,
      ∀ e2 ∈ (AuditLogService.execute svc action cs mt dbModels failOn s c).entries,
        e1.changesetUuidBin = e2.changesetUuidBin) ∧
    (∀ e1 ∈ (AuditLogService.execute svc action cs mt dbModels failOn s c).entries,
      ∀ e2 ∈ (AuditLogService.execute svc2 action2 cs2 mt2 dbModels2 failOn2 s2 c2).entries,
        e1.changesetUuidBin ≠ e2.changesetUuidBin) := by
  constructor
  · intro e1 h1 e2 h2
    rw [(execute_entries_uuid svc action cs mt dbModels failOn s c e1 h1).1,
      (execute_entries_uuid svc action cs mt dbModels failOn s c e2 h2).1]
  · intro e1 h1 e2 h2
    have u1 := execute_entries_uuid svc action cs mt dbModels failOn s c e1 h1
    have u2 := execute_entries_uuid svc2 action2 cs2 mt2 dbModels2 failOn2 s2 c2 e2 h2
    rw [u1.1, u2.1]
    have hn := u1.2
    omega

/-- Witness for C7: two concrete consecutive invocations, the first producing two
entries that share their identifier, the second starting at the supply value the
first handed back and sharing no identifier with it. -/
theorem c7_correlation_identifier_shared_and_fresh_witness :
    (∀ e1 ∈ (AuditLogService.execute svc13 "UPDATE" [twoFieldModel] true [] noFail {} 0).entries,
      ∀ e2 ∈ (AuditLogService.execute svc13 "UPDATE" [twoFieldModel] true [] noFail {} 0).entries,
        e1.changesetUuidBin = e2.changesetUuidBin) ∧
    (∀ e1 ∈ (AuditLogService.execute svc13 "UPDATE" [twoFieldModel] true [] noFail {} 0).entries,
      ∀ e2 ∈ (AuditLogService.execute svc13 "UPDATE" [compositeModel] true [] noFail
          {} 1).entries,
        e1.changesetUuidBin ≠ e2.changesetUuidBin) :=
  c7_correlation_identifier_shared_and_fresh svc13 "UPDATE" [twoFieldModel] true [] noFail {} 0
    svc13 "UPDATE" [compositeModel] true [] noFail {} 1 (by decide)

/-- C8 amended: for CREATE and DELETE the only cardinality the validator rejects is
`changeSet.length > 1`, with InvalidChangeSetError and no storage write. A
zero-member change-set passes that check: a zero-member DELETE still fails with
InvalidChangeSetError — but via the member-support re-check inside `destroyModel`,
on the `undefined` member — while a zero-member CREATE fails with a TypeError
(destructuring `undefined`), not InvalidChangeSetError. In every case the store is
untouched. -/
theorem c8_amended_cardinality (svc : AuditLogService) (usr : DashboardUser)
    (action : String) (cs : List DBModel) (mt : Bool)
    (dbModels : List (String × RegisteredModel)) (failOn : Write → Option Nat)
    (s : Store) (c : Nat)
    (hu : svc.user = some usr)
    (hact : action = "CREATE" ∨ action = "DELETE") :
    (cs.all (fun m => m.isSequelizeModel) = true → 1 < cs.length →
      (AuditLogService.execute svc action cs mt dbModels failOn s c).error? =
        some AuditError.invalidChangeSet ∧
      (AuditLogService.execute svc action cs mt dbModels failOn s c).store = s) ∧
    (cs = [] → action = "DELETE" →
      (AuditLogService.execute svc action cs mt dbModels failOn s c).error? =
        some AuditError.invalidChangeSet ∧
      (AuditLogService.execute svc action cs mt dbModels failOn s c).store = s) ∧
    (cs = [] → action = "CREATE" →
      (AuditLogService.execute svc action cs mt dbModels failOn s c).error? =
        some AuditError.typeError ∧
      (AuditLogService.execute svc action cs mt dbModels failOn s c).store = s) := by
  refine ⟨?_, ?_, ?_⟩
  · intro hall hlen
    rcases hact with h | h <;> subst h <;>
      (unfold AuditLogService.execute
       rw [hu, verifyArguments_ok usr cs hall]
       simp only [decide_eq_true hlen]
       exact ⟨rfl, rfl⟩)
  · intro h2 h3
    subst h2
    subst h3
    rw [execute_eq_dispatch _ _ _ _ _ _ _ _
      (by rw [hu]; exact verifyArguments_ok usr [] rfl) (by decide) (by rfl)]
    unfold AuditLogService.dispatchAction AuditLogService.destroyModel
    rw [hu]
    exact ⟨rfl, rfl⟩
  · intro h2 h3
    subst h2
    subst h3
    rw [execute_eq_dispatch _ _ _ _ _ _ _ _
      (by rw [hu]; exact verifyArguments_ok usr [] rfl) (by decide) (by rfl)]
    unfold AuditLogService.dispatchAction AuditLogService.createModel
    exact ⟨rfl, rfl⟩

/-- Witness for the amended C8 statement: a two-member CREATE is rejected with
InvalidChangeSetError, a zero-member DELETE is rejected with InvalidChangeSetError,
and a zero-member CREATE fails with a TypeError; the store is untouched each time. -/
theorem c8_amended_cardinality_witness :
    ((AuditLogService.execute svc13 "CREATE" [deliveryModel, deliveryModel] true [] noFail
        {} 0).error? = some AuditError.invalidChangeSet ∧
      (AuditLogService.execute svc13 "CREATE" [deliveryModel, deliveryModel] true [] noFail
        {} 0).store = {}) ∧
    ((AuditLogService.execute svc13 "DELETE" [] true [] noFail {} 0).error? =
        some AuditError.invalidChangeSet ∧
      (AuditLogService.execute svc13 "DELETE" [] true [] noFail {} 0).store = {}) ∧
    ((AuditLogService.execute svc13 "CREATE" [] true [] noFail {} 0).error? =
        some AuditError.typeError ∧
      (AuditLogService.execute svc13 "CREATE" [] true [] noFail {} 0).store = {}) :=
  ⟨(c8_amended_cardinality svc13 user13 "CREATE" [deliveryModel, deliveryModel] true []
      noFail {} 0 rfl (Or.inl rfl)).1 (by decide) (by decide),
   (c8_amended_cardinality svc13 user13 "DELETE" [] true [] noFail {} 0 rfl
      (Or.inr rfl)).2.1 rfl rfl,
   (c8_amended_cardinality svc13 user13 "CREATE" [] true [] noFail {} 0 rfl
      (Or.inl rfl)).2.2 rfl rfl⟩

/-- A registry knowing the table of the two-dirty-field record. -/
def regT : List (String × RegisteredModel) :=
  [("T", { primaryKeyAttributes := ["id"], labelCap := none })]

/-- C9: label resolution for a record type that does not implement the `labelValue`
capability yields absent for every value — it never raises — so every audit entry the
builders produce for such a type carries null `oldLabel` and null `newLabel`, on the
UPDATE, DELETE and CREATE paths alike. (The Label Resolver itself is modelled from
the spec; see `labelValue`.) -/
theorem c9_missing_label_capability_yields_null
    (v : Value) (u : Nat) (cb : Int) (m : DBModel)
    (failOn : Write → Option Nat) (user? : Option DashboardUser) (s : Store) (c : Nat)
    (dbModels : List (String × RegisteredModel)) (rm : RegisteredModel)
    (hm : m.labelCap = none)
    (hrm : dbModelsLookup dbModels m.tableName = some rm) (hcap : rm.labelCap = none) :
    labelValue none v = none ∧
    (∀ e ∈ AuditLogService.updateEntriesForModel u cb m,
      e.oldLabel = none ∧ e.newLabel = none) ∧
    (∀ e ∈ (AuditLogService.destroyModel failOn user? (some m) cb s c).entries,
      e.oldLabel = none ∧ e.newLabel = none) ∧
    (∀ e ∈ (AuditLogService.createModel dbModels failOn (some m) cb s c).entries,
      e.oldLabel = none ∧ e.newLabel = none) := by
  refine ⟨rfl, ?_, ?_, ?_⟩
  · intro e he
    have hf := updateEntriesForModel_fields u cb m e he
    rw [hf.2.2.1, hf.2.2.2, hm]
    exact ⟨rfl, rfl⟩
  · unfold AuditLogService.destroyModel
    split
    · simp
    · split
      · simp
      · next mm heq =>
        cases heq
        split
        · simp
        · split
          · simp
          · intro e he
            simp only [List.mem_singleton] at he
            subst he
            refine ⟨?_, rfl⟩
            show labelValue m.labelCap (Value.obj m.attrs) = none
            rw [hm]
            rfl
  · simp only [AuditLogService.createModel, hrm]
    split
    · simp
    · split
      · simp
      · intro e he
        simp only [List.mem_singleton] at he
        subst he
        refine ⟨rfl, ?_⟩
        show labelValue rm.labelCap (Value.obj (eraseKey m.attrs "tableName")) = none
        rw [hcap]
        rfl

/-- Witness for C9 at the two-dirty-field record, whose type has no label
capability. -/
theorem c9_missing_label_capability_yields_null_witness :
    labelValue none (Value.prim Prim.null) = none ∧
    (∀ e ∈ AuditLogService.updateEntriesForModel 0 13 twoFieldModel,
      e.oldLabel = none ∧ e.newLabel = none) ∧
    (∀ e ∈ (AuditLogService.destroyModel noFail (some user13) (some twoFieldModel) 13
        {} 0).entries,
      e.oldLabel = none ∧ e.newLabel = none) ∧
    (∀ e ∈ (AuditLogService.createModel regT noFail (some twoFieldModel) 13 {} 0).entries,
      e.oldLabel = none ∧ e.newLabel = none) :=
  c9_missing_label_capability_yields_null (Value.prim Prim.null) 0 13 twoFieldModel
    noFail (some user13) {} 0 regT { primaryKeyAttributes := ["id"], labelCap := none }
    rfl rfl rfl

/-- C10: `withUser` binds only the user and `withTransaction` binds only the
transaction; each leaves the other binding unchanged, mutating and returning the one
service value, so the two calls chain in either order to the same state. -/
theorem c10_builder_methods_frame (svc : AuditLogService) (usr : DashboardUser) (t : Nat) :
    (AuditLogService.withUser svc usr).user = some usr ∧
    (AuditLogService.withUser svc usr).transaction = svc.transaction ∧
    (AuditLogService.withTransaction svc t).transaction = some t ∧
    (AuditLogService.withTransaction svc t).user = svc.user ∧
    AuditLogService.withUser (AuditLogService.withTransaction svc t) usr =
      AuditLogService.withTransaction (AuditLogService.withUser svc usr) t :=
  ⟨rfl, rfl, rfl, rfl, rfl⟩
